import Mathlib

/-
Verification of the steady-state aggregation algorithm of
performance-tests/analyze_results.py (function
load_results_data_with_warmup_exclusion and the driver main).

Numeric CSV fields are modelled as exact rationals; cumulative request and
failure counts as natural numbers; a missing percentile cell (NaN in the
CSV) as Option.none.
-/

/-- One CSV row of results_stats_history.csv, as read by the script.
The script only uses the columns modelled here. -/
structure Row where
  name : String
  timestamp : ℚ
  requestCount : ℕ
  failureCount : ℕ
  avgResponseTime : ℚ
  medianResponseTime : ℚ
  maxResponseTime : ℚ
  minResponseTime : ℚ
  p95 : Option ℚ
  p99 : Option ℚ
  requestsPerSec : ℚ
deriving DecidableEq

/-- The per-repetition record rep_stats built at lines 91-105 of
analyze_results.py. -/
structure RepStats where
  avg_response_time : ℚ
  median_response_time : ℚ
  max_response_time : ℚ
  min_response_time : ℚ
  p95_response_time : ℚ
  p99_response_time : ℚ
  success_rate : ℚ
  requests_per_sec : ℚ
  total_requests : ℕ
  total_failures : ℕ
  valid_duration : ℕ
  warmup_discarded : ℚ
deriving DecidableEq

/-- The per-scenario record built at lines 119-137 of analyze_results.py
(the bookkeeping fields name, users, warmup_seconds, total_duration and
the stored list all_repetitions are omitted; they are copied verbatim). -/
structure ScenarioStats where
  avg_response_time : ℚ
  median_response_time : ℚ
  max_response_time : ℚ
  min_response_time : ℚ
  p95_response_time : ℚ
  p99_response_time : ℚ
  success_rate : ℚ
  avg_requests_per_sec : ℚ
  total_requests : ℕ
  total_failures : ℕ
  repetitions : ℕ
deriving DecidableEq

/-- Mean of a list of rationals, as pandas Series.mean and np.mean
(empty list gives 0 by rational division by zero, never reached by the
script on the lists it averages). -/
def meanQ (l : List ℚ) : ℚ := l.sum / (l.length : ℚ)

/-- Minimum of a list of rationals, as pandas Series.min and np.min
(0 on the empty list, never reached by the script). -/
def minList : List ℚ → ℚ
  | [] => 0
  | x :: xs => xs.foldl min x

/-- Maximum of a list of rationals, as np.max
(0 on the empty list, never reached by the script). -/
def maxList : List ℚ → ℚ
  | [] => 0
  | x :: xs => xs.foldl max x

/-- Line 70: keep only the rows whose Name column is Aggregated. -/
def aggRows (rows : List Row) : List Row :=
  rows.filter (fun r => r.name == "Aggregated")

/-- Line 77: start_timestamp is the minimum Timestamp of the aggregated
rows. -/
def startTimestamp (rows : List Row) : ℚ :=
  minList ((aggRows rows).map (fun r => r.timestamp))

/-- Line 78: warmup_end_timestamp = start_timestamp + warmup seconds. -/
def cutoff (warmup : ℚ) (rows : List Row) : ℚ :=
  startTimestamp rows + warmup

/-- Line 81: df_valid keeps the aggregated rows with
Timestamp >= warmup_end_timestamp. -/
def validRows (warmup : ℚ) (rows : List Row) : List Row :=
  (aggRows rows).filter (fun r => decide (cutoff warmup rows ≤ r.timestamp))

/-- Lines 98-99: success rate from the final cumulative counters, with the
division-by-zero sentinel 0. -/
def successRate (req fail : ℕ) : ℚ :=
  if 0 < req then ((req : ℚ) - (fail : ℚ)) / (req : ℚ) * 100 else 0

/-- Lines 91-105: the rep_stats dictionary, built from the final retained
row (final_data = df_valid.iloc[-1]) and from the whole retained list for
the throughput mean. -/
def mkRepStats (warmup : ℚ) (finalRow : Row) (valid : List Row) : RepStats where
  avg_response_time := finalRow.avgResponseTime
  median_response_time := finalRow.medianResponseTime
  max_response_time := finalRow.maxResponseTime
  min_response_time := finalRow.minResponseTime
  p95_response_time := finalRow.p95.getD finalRow.avgResponseTime
  p99_response_time := finalRow.p99.getD finalRow.avgResponseTime
  success_rate := successRate finalRow.requestCount finalRow.failureCount
  requests_per_sec := meanQ (valid.map (fun r => r.requestsPerSec))
  total_requests := finalRow.requestCount
  total_failures := finalRow.failureCount
  valid_duration := valid.length
  warmup_discarded := warmup

/-- Outcome of processing one repetition file, one constructor per
distinguishable diagnostic branch of lines 66-115. -/
inductive FileOutcome where
  | loaded (stats : RepStats)
  | noAggregatedRows
  | noDataAfterWarmup
  | readError
deriving DecidableEq

/-- Lines 70-105 applied to the rows of one readable file: filter the
Aggregated rows, bail out when none, drop the warmup window, bail out when
nothing remains, otherwise summarize from the last retained row. -/
def loadRows (warmup : ℚ) (rows : List Row) : FileOutcome :=
  if (aggRows rows).isEmpty then .noAggregatedRows
  else
    match (validRows warmup rows).getLast? with
    | none => .noDataAfterWarmup
    | some finalRow => .loaded (mkRepStats warmup finalRow (validRows warmup rows))

/-- Lines 66-115 for one file: an unreadable file (pd.read_csv raising) is
the except-branch of line 114, otherwise the rows are processed. -/
def processFile (warmup : ℚ) (fileData : Option (List Row)) : FileOutcome :=
  match fileData with
  | none => .readError
  | some rows => loadRows warmup rows

/-- Diagnostic line printed for each outcome (lines 73, 84, 110, 115);
the interpolated numbers of the loaded message are elided. -/
def diagnosticOf : FileOutcome → String
  | .loaded _ => "Rep carregada"
  | .noAggregatedRows => "Nenhum dado agregado encontrado"
  | .noDataAfterWarmup => "Nenhum dado valido apos aquecimento"
  | .readError => "Erro ao processar"

/-- The repetition summaries kept in all_stats (line 107): only the loaded
outcomes survive. -/
def validStats (outs : List FileOutcome) : List RepStats :=
  outs.filterMap (fun o =>
    match o with
    | .loaded r => some r
    | _ => none)

/-- Lines 117-137: the per-scenario reduction over the valid repetition
summaries; an empty list yields no scenario entry (line 140). -/
def scenarioSummary (l : List RepStats) : Option ScenarioStats :=
  if l.isEmpty then none
  else some {
    avg_response_time := meanQ (l.map (fun s => s.avg_response_time)),
    median_response_time := meanQ (l.map (fun s => s.median_response_time)),
    max_response_time := maxList (l.map (fun s => s.max_response_time)),
    min_response_time := minList (l.map (fun s => s.min_response_time)),
    p95_response_time := meanQ (l.map (fun s => s.p95_response_time)),
    p99_response_time := meanQ (l.map (fun s => s.p99_response_time)),
    success_rate := meanQ (l.map (fun s => s.success_rate)),
    avg_requests_per_sec := meanQ (l.map (fun s => s.requests_per_sec)),
    total_requests := (l.map (fun s => s.total_requests)).sum,
    total_failures := (l.map (fun s => s.total_failures)).sum,
    repetitions := l.length }

/-- Lines 62-137 for one scenario: process every repetition file, keep the
valid summaries, reduce them. -/
def processScen (warmup : ℚ) (files : List (Option (List Row))) : Option ScenarioStats :=
  scenarioSummary (validStats (files.map (processFile warmup)))

/-- The diagnostic log of one scenario loop, one line per file. -/
def scenLog (warmup : ℚ) (files : List (Option (List Row))) : List String :=
  (files.map (processFile warmup)).map diagnosticOf

/-- Scenario attributes of the scenario_mapping table (lines 33-52). -/
structure ScenInfo where
  users : ℕ
  warmup_seconds : ℚ
  total_duration : ℚ
deriving DecidableEq

/-- Lines 54-143: the whole loader, a mapping from scenario name to
scenario summary; scenarios with no valid repetition are omitted. -/
def runAnalysis (scens : List (String × ScenInfo × List (Option (List Row)))) :
    List (String × ScenarioStats) :=
  scens.filterMap (fun s => (processScen s.2.1.warmup_seconds s.2.2).map (fun st => (s.1, st)))

/-- Result of the driver main. -/
inductive MainOutcome where
  | abortedNoResults (exitCode : ℕ)
  | completed (results : List (String × ScenarioStats))
deriving DecidableEq

/-- Lines 460-464 of main: when the loader returns no scenario at all the
driver prints an error line and returns; a plain return from main, so the
interpreter exits with status 0. Otherwise the report generation runs over
the results. -/
def mainRun (scens : List (String × ScenInfo × List (Option (List Row)))) : MainOutcome :=
  if (runAnalysis scens).isEmpty then .abortedNoResults 0
  else .completed (runAnalysis scens)

/-- Folding max never goes below the seed. -/
lemma le_foldl_max (xs : List ℚ) (x : ℚ) : x ≤ xs.foldl max x := by
  induction xs generalizing x with
  | nil => exact le_refl x
  | cons y ys ih => exact le_trans (le_max_left x y) (ih (max x y))

/-- Folding max dominates every list element. -/
lemma mem_le_foldl_max (xs : List ℚ) (x : ℚ) {y : ℚ} (h : y ∈ xs) :
    y ≤ xs.foldl max x := by
  induction xs generalizing x with
  | nil => cases h
  | cons z zs ih =>
    rcases List.mem_cons.mp h with rfl | hz
    · exact le_trans (le_max_right x y) (le_foldl_max zs (max x y))
    · exact ih (max x z) hz

/-- Folding max yields the seed or a list element. -/
lemma foldl_max_mem (xs : List ℚ) (x : ℚ) :
    xs.foldl max x = x ∨ xs.foldl max x ∈ xs := by
  induction xs generalizing x with
  | nil => exact Or.inl rfl
  | cons y ys ih =>
    rcases ih (max x y) with h | h
    · rcases max_choice x y with hm | hm
      · exact Or.inl (by rw [List.foldl_cons, h, hm])
      · exact Or.inr (by rw [List.foldl_cons, h, hm]; exact List.mem_cons_self y ys)
    · exact Or.inr (List.mem_cons_of_mem y h)

/-- Folding min never goes above the seed. -/
lemma foldl_min_le (xs : List ℚ) (x : ℚ) : xs.foldl min x ≤ x := by
  induction xs generalizing x with
  | nil => exact le_refl x
  | cons y ys ih => exact le_trans (ih (min x y)) (min_le_left x y)

/-- Folding min is below every list element. -/
lemma foldl_min_le_mem (xs : List ℚ) (x : ℚ) {y : ℚ} (h : y ∈ xs) :
    xs.foldl min x ≤ y := by
  induction xs generalizing x with
  | nil => cases h
  | cons z zs ih =>
    rcases List.mem_cons.mp h with rfl | hz
    · exact le_trans (foldl_min_le zs (min x y)) (min_le_right x y)
    · exact ih (min x z) hz

/-- Folding min yields the seed or a list element. -/
lemma foldl_min_mem (xs : List ℚ) (x : ℚ) :
    xs.foldl min x = x ∨ xs.foldl min x ∈ xs := by
  induction xs generalizing x with
  | nil => exact Or.inl rfl
  | cons y ys ih =>
    rcases ih (min x y) with h | h
    · rcases min_choice x y with hm | hm
      · exact Or.inl (by rw [List.foldl_cons, h, hm])
      · exact Or.inr (by rw [List.foldl_cons, h, hm]; exact List.mem_cons_self y ys)
    · exact Or.inr (List.mem_cons_of_mem y h)

/-- The maximum of a non-empty list is one of its elements. -/
lemma maxList_mem {l : List ℚ} (h : l ≠ []) : maxList l ∈ l := by
  cases l with
  | nil => exact absurd rfl h
  | cons x xs =>
    rcases foldl_max_mem xs x with he | he
    · show xs.foldl max x ∈ x :: xs
      rw [he]
      exact List.mem_cons_self x xs
    · exact List.mem_cons_of_mem x he

/-- Every element is at most the maximum of the list. -/
lemma le_maxList {l : List ℚ} {y : ℚ} (h : y ∈ l) : y ≤ maxList l := by
  cases l with
  | nil => cases h
  | cons x xs =>
    rcases List.mem_cons.mp h with rfl | hy
    · exact le_foldl_max xs y
    · exact mem_le_foldl_max xs x hy

/-- The minimum of a non-empty list is one of its elements. -/
lemma minList_mem {l : List ℚ} (h : l ≠ []) : minList l ∈ l := by
  cases l with
  | nil => exact absurd rfl h
  | cons x xs =>
    rcases foldl_min_mem xs x with he | he
    · show xs.foldl min x ∈ x :: xs
      rw [he]
      exact List.mem_cons_self x xs
    · exact List.mem_cons_of_mem x he

/-- The minimum of a list is at most every element. -/
lemma minList_le {l : List ℚ} {y : ℚ} (h : y ∈ l) : minList l ≤ y := by
  cases l with
  | nil => cases h
  | cons x xs =>
    rcases List.mem_cons.mp h with rfl | hy
    · exact foldl_min_le xs y
    · exact foldl_min_le_mem xs x hy

/-- The maximum of a list only depends on its multiset of elements. -/
lemma maxList_perm {l₁ l₂ : List ℚ} (h : l₁.Perm l₂) : maxList l₁ = maxList l₂ := by
  cases l₁ with
  | nil => rw [h.nil_eq.symm]
  | cons x xs =>
    have h₂ : l₂ ≠ [] := by
      intro he
      exact List.cons_ne_nil x xs (List.Perm.eq_nil (he ▸ h))
    exact le_antisymm
      (le_maxList (h.mem_iff.mp (maxList_mem (List.cons_ne_nil x xs))))
      (le_maxList (h.mem_iff.mpr (maxList_mem h₂)))

/-- The minimum of a list only depends on its multiset of elements. -/
lemma minList_perm {l₁ l₂ : List ℚ} (h : l₁.Perm l₂) : minList l₁ = minList l₂ := by
  cases l₁ with
  | nil => rw [h.nil_eq.symm]
  | cons x xs =>
    have h₂ : l₂ ≠ [] := by
      intro he
      exact List.cons_ne_nil x xs (List.Perm.eq_nil (he ▸ h))
    exact le_antisymm
      (minList_le (h.mem_iff.mpr (minList_mem h₂)))
      (minList_le (h.mem_iff.mp (minList_mem (List.cons_ne_nil x xs))))

/-- The mean of a list only depends on its multiset of elements. -/
lemma meanQ_perm {l₁ l₂ : List ℚ} (h : l₁.Perm l₂) : meanQ l₁ = meanQ l₂ := by
  unfold meanQ
  rw [h.sum_eq, h.length_eq]

/-- An element described by getLast? is in the list. -/
lemma getLast?_mem_list {α : Type} {l : List α} {a : α} (h : l.getLast? = some a) :
    a ∈ l := by
  obtain ⟨hne, he⟩ := List.mem_getLast?_eq_getLast (by rw [Option.mem_def, h])
  exact he ▸ List.getLast_mem hne

/-- Characterization of the loaded branch of loadRows. -/
lemma loadRows_loaded_iff {warmup : ℚ} {rows : List Row} {r : RepStats} :
    loadRows warmup rows = .loaded r ↔
      (aggRows rows).isEmpty = false ∧
      ∃ finalRow, (validRows warmup rows).getLast? = some finalRow ∧
        r = mkRepStats warmup finalRow (validRows warmup rows) := by
  constructor
  · intro h
    by_cases he : (aggRows rows).isEmpty
    · rw [loadRows, if_pos he] at h
      cases h
    · cases hg : (validRows warmup rows).getLast? with
      | none =>
        rw [loadRows, if_neg he, hg] at h
        cases h
      | some finalRow =>
        rw [loadRows, if_neg he, hg] at h
        cases h
        exact ⟨Bool.eq_false_iff.mpr he, finalRow, rfl, rfl⟩
  · rintro ⟨he, finalRow, hg, rfl⟩
    rw [loadRows, if_neg (Bool.eq_false_iff.mp he), hg]

/-- Builder for an aggregated CSV row with every metric column explicit. -/
def sampleRow (t : ℚ) (req fl : ℕ) (avg med mx mn : ℚ) (q95 q99 : Option ℚ)
    (rps : ℚ) : Row :=
  ⟨"Aggregated", t, req, fl, avg, med, mx, mn, q95, q99, rps⟩

/-- A per-endpoint breakdown row, ignored by the aggregator. -/
def endpointRow : Row :=
  ⟨"GET /api/customer/owners", 30, 5, 0, 8, 8, 9, 7, some 9, some 9, 1⟩

/-- Snapshot at second 0 of the boundary example series. -/
def exRow0 : Row := sampleRow 0 10 0 10 9 40 2 (some 30) (some 35) 5

/-- Snapshot at second 30 of the boundary example series. -/
def exRow1 : Row := sampleRow 30 40 1 12 11 45 2 (some 33) (some 38) 6

/-- Snapshot at second 59 of the boundary example series. -/
def exRow2 : Row := sampleRow 59 70 1 14 12 50 2 (some 36) (some 42) 7

/-- Snapshot at second 60 of the boundary example series. -/
def exRow3 : Row := sampleRow 60 80 2 16 13 55 2 (some 39) (some 46) 8

/-- Snapshot at second 90 of the boundary example series. -/
def exRow4 : Row := sampleRow 90 120 3 18 14 60 2 (some 44) (some 52) 10

/-- The spec example series: timestamps 0, 30, 59, 60, 90, plus one
per-endpoint row that the aggregator must ignore. -/
def exampleSeries : List Row := [exRow0, exRow1, endpointRow, exRow2, exRow3, exRow4]

/-- A series fully consumed by a 30 second (or longer) warmup window. -/
def warmupOnlySeries : List Row :=
  [sampleRow 0 4 0 22 21 30 9 (some 25) (some 28) 2,
   sampleRow 10 9 0 23 22 31 9 (some 26) (some 29) 2,
   sampleRow 20 15 1 24 23 33 9 (some 27) (some 30) 3]

/-- A final snapshot whose percentile cells are missing (NaN). -/
def nanRow : Row := sampleRow 50 60 0 25 24 70 3 none none 9

/-- A series whose retained part is the single percentile-free snapshot. -/
def nanSeries : List Row :=
  [sampleRow 0 10 0 20 19 60 3 (some 40) (some 45) 8, nanRow]

/-- A snapshot in which every request failed. -/
def failRow : Row := sampleRow 0 5 5 30 29 80 4 (some 50) (some 55) 2

/-- First snapshot of the order-sensitivity example. -/
def uRow0 : Row := sampleRow 0 10 0 50 48 90 5 (some 60) (some 70) 4

/-- Middle-timestamp snapshot of the order-sensitivity example. -/
def uRow60 : Row := sampleRow 60 80 2 100 95 200 10 (some 150) (some 170) 8

/-- Last-timestamp snapshot of the order-sensitivity example. -/
def uRow90 : Row := sampleRow 90 120 3 200 180 400 20 (some 300) (some 350) 12

/-- The same three snapshots out of timestamp order. -/
def unsortedSeries : List Row := [uRow0, uRow90, uRow60]

/-- The same three snapshots in timestamp order. -/
def sortedSeries : List Row := [uRow0, uRow60, uRow90]

/-- A valid repetition summary with average 100 ms and maximum 300 ms. -/
def repA : RepStats := ⟨100, 95, 300, 10, 150, 200, 99, 50, 1000, 10, 540, 60⟩

/-- A valid repetition summary with average 140 ms and maximum 250 ms. -/
def repB : RepStats := ⟨140, 120, 250, 20, 180, 240, 97, 60, 1200, 36, 540, 60⟩

/-- A scenario table whose only repetition file is fully consumed by the
warmup window, so that no scenario yields a result. -/
def noResultScens : List (String × ScenInfo × List (Option (List Row))) :=
  [("CenarioA", ⟨50, 60, 600⟩, [some warmupOnlySeries])]

/-- Folding min over elements above the seed returns the seed. -/
lemma foldl_min_of_le (xs : List ℚ) (x : ℚ) (h : ∀ y ∈ xs, x ≤ y) :
    xs.foldl min x = x := by
  induction xs with
  | nil => rfl
  | cons y ys ih =>
    rw [List.foldl_cons, min_eq_left (h y (List.mem_cons_self y ys))]
    exact ih (fun z hz => h z (List.mem_cons_of_mem y hz))

/-- On a non-empty ascending list the minimum is the head. -/
lemma minList_sorted {l : List ℚ} (hne : l ≠ []) (hs : l.Sorted (· ≤ ·)) :
    minList l = l.headI := by
  cases l with
  | nil => exact absurd rfl hne
  | cons x xs =>
    have hx : ∀ y ∈ xs, x ≤ y := (List.sorted_cons.mp hs).1
    exact foldl_min_of_le xs x hx

/-- The aggregated rows of the boundary example series. -/
lemma aggRows_example :
    aggRows exampleSeries = [exRow0, exRow1, exRow2, exRow3, exRow4] := by
  have hb : ("GET /api/customer/owners" == "Aggregated") = false := by decide
  norm_num [aggRows, exampleSeries, exRow0, exRow1, exRow2, exRow3, exRow4,
    endpointRow, sampleRow, List.filter, hb]

/-- The warmup cutoff of the boundary example series. -/
lemma cutoff_example : cutoff 60 exampleSeries = 60 := by
  norm_num [cutoff, startTimestamp, aggRows_example, exRow0, exRow1, exRow2,
    exRow3, exRow4, sampleRow, minList, min_def]

/-- The retained rows of the boundary example series. -/
lemma validRows_example : validRows 60 exampleSeries = [exRow3, exRow4] := by
  norm_num [validRows, cutoff_example, aggRows_example, exRow0, exRow1, exRow2,
    exRow3, exRow4, sampleRow, List.filter]

/-- The boundary example series loads from the timestamp-90 row. -/
lemma loadRows_example :
    loadRows 60 exampleSeries = .loaded (mkRepStats 60 exRow4 [exRow3, exRow4]) := by
  simp [loadRows, aggRows_example, validRows_example]

/-- With a 60 second warmup the warmup-only series keeps nothing. -/
lemma loadRows_warmupOnly60 : loadRows 60 warmupOnlySeries = .noDataAfterWarmup := by
  norm_num [loadRows, validRows, cutoff, startTimestamp, aggRows,
    warmupOnlySeries, sampleRow, minList, min_def, List.filter]

/-- The one-scenario table with only a warmup-consumed file yields no
result at all. -/
lemma runAnalysis_noResult : runAnalysis noResultScens = [] := by
  simp [runAnalysis, noResultScens, processScen, processFile,
    loadRows_warmupOnly60, validStats, scenarioSummary]

/-- The retained rows of the missing-percentile series. -/
lemma validRows_nan : validRows 40 nanSeries = [nanRow] := by
  norm_num [validRows, cutoff, startTimestamp, aggRows, nanSeries, nanRow,
    sampleRow, minList, min_def, List.filter]

/-- The aggregated rows of the missing-percentile series. -/
lemma aggRows_nan : aggRows nanSeries = nanSeries := by
  norm_num [aggRows, nanSeries, nanRow, sampleRow, List.filter]

/-- The missing-percentile series loads from its percentile-free row. -/
lemma loadRows_nan :
    loadRows 40 nanSeries = .loaded (mkRepStats 40 nanRow [nanRow]) := by
  rw [loadRows, aggRows_nan, validRows_nan]
  simp [nanSeries]

/-- The all-failures one-row series loads with zero warmup. -/
lemma loadRows_fail :
    loadRows 0 [failRow] = .loaded (mkRepStats 0 failRow [failRow]) := by
  norm_num [loadRows, validRows, cutoff, startTimestamp, aggRows, failRow,
    sampleRow, minList, List.filter]

/-- Retained rows of the out-of-order series, in input order. -/
lemma validRows_unsorted : validRows 60 unsortedSeries = [uRow90, uRow60] := by
  norm_num [validRows, cutoff, startTimestamp, aggRows, unsortedSeries,
    uRow0, uRow60, uRow90, sampleRow, minList, min_def, List.filter]

/-- Retained rows of the in-order series. -/
lemma validRows_sorted : validRows 60 sortedSeries = [uRow60, uRow90] := by
  norm_num [validRows, cutoff, startTimestamp, aggRows, sortedSeries,
    uRow0, uRow60, uRow90, sampleRow, minList, min_def, List.filter]

/-- The out-of-order series takes its point estimate from the
middle-timestamp row, the last retained one in input order. -/
lemma loadRows_unsorted :
    loadRows 60 unsortedSeries = .loaded (mkRepStats 60 uRow60 [uRow90, uRow60]) := by
  have ha : aggRows unsortedSeries = unsortedSeries := by
    norm_num [aggRows, unsortedSeries, uRow0, uRow60, uRow90, sampleRow, List.filter]
  rw [loadRows, ha, validRows_unsorted]
  simp [unsortedSeries]

/-- The in-order series takes its point estimate from the last-timestamp
row. -/
lemma loadRows_sorted :
    loadRows 60 sortedSeries = .loaded (mkRepStats 60 uRow90 [uRow60, uRow90]) := by
  have ha : aggRows sortedSeries = sortedSeries := by
    norm_num [aggRows, sortedSeries, uRow0, uRow60, uRow90, sampleRow, List.filter]
  rw [loadRows, ha, validRows_sorted]
  simp [sortedSeries]

/-- Case analysis of the success-rate formula of lines 98-99. -/
lemma successRate_cases (req fl : ℕ) :
    (req = 0 → successRate req fl = 0) ∧
    (0 < req → successRate req fl = ((req : ℚ) - (fl : ℚ)) / (req : ℚ) * 100) ∧
    (fl ≤ req → 0 ≤ successRate req fl ∧ successRate req fl ≤ 100) ∧
    (successRate req fl = 0 ↔ req = 0 ∨ fl = req) := by
  refine ⟨?_, ?_, ?_, ?_⟩
  · intro h
    simp [successRate, h]
  · intro h
    simp [successRate, h]
  · intro hle
    rcases Nat.eq_zero_or_pos req with h0 | hpos
    · simp [successRate, h0]
    · have hq : (0 : ℚ) < (req : ℚ) := by exact_mod_cast hpos
      have hf : (fl : ℚ) ≤ (req : ℚ) := by exact_mod_cast hle
      have hf0 : (0 : ℚ) ≤ (fl : ℚ) := by positivity
      rw [successRate, if_pos hpos]
      constructor
      · have h1 : (0 : ℚ) ≤ ((req : ℚ) - fl) / req := div_nonneg (by linarith) hq.le
        nlinarith
      · have h1 : ((req : ℚ) - fl) / req ≤ 1 := by
          rw [div_le_one hq]
          linarith
        nlinarith
  · rcases Nat.eq_zero_or_pos req with h0 | hpos
    · simp [successRate, h0]
    · rw [successRate, if_pos hpos]
      have hq : (0 : ℚ) < (req : ℚ) := by exact_mod_cast hpos
      constructor
      · intro h
        rcases mul_eq_zero.mp h with h1 | h1
        · rcases div_eq_zero_iff.mp h1 with h2 | h2
          · right
            have hfr : (fl : ℚ) = (req : ℚ) := by linarith [sub_eq_zero.mp h2]
            exact_mod_cast hfr
          · exact absurd h2 (ne_of_gt hq)
        · norm_num at h1
      · rintro (h | h)
        · exact absurd h (by omega)
        · subst h
          simp

/-- C1: for every non-empty list of valid repetition summaries the
scenario reduction takes the unweighted arithmetic mean of avg, median,
p95, p99 response time, throughput and success rate (each repetition
counts equally), the maximum of the max response times, the minimum of the
min response times, and the sum of the total request and failure counts. -/
theorem C1_scenario_reductions (l : List RepStats) (hne : l ≠ []) :
    ∃ s, scenarioSummary l = some s ∧
      s.avg_response_time = (l.map (fun x => x.avg_response_time)).sum / (l.length : ℚ) ∧
      s.median_response_time = (l.map (fun x => x.median_response_time)).sum / (l.length : ℚ) ∧
      s.p95_response_time = (l.map (fun x => x.p95_response_time)).sum / (l.length : ℚ) ∧
      s.p99_response_time = (l.map (fun x => x.p99_response_time)).sum / (l.length : ℚ) ∧
      s.avg_requests_per_sec = (l.map (fun x => x.requests_per_sec)).sum / (l.length : ℚ) ∧
      s.success_rate = (l.map (fun x => x.success_rate)).sum / (l.length : ℚ) ∧
      (s.max_response_time ∈ l.map (fun x => x.max_response_time) ∧
        ∀ y ∈ l.map (fun x => x.max_response_time), y ≤ s.max_response_time) ∧
      (s.min_response_time ∈ l.map (fun x => x.min_response_time) ∧
        ∀ y ∈ l.map (fun x => x.min_response_time), s.min_response_time ≤ y) ∧
      s.total_requests = (l.map (fun x => x.total_requests)).sum ∧
      s.total_failures = (l.map (fun x => x.total_failures)).sum := by
  have hE : l.isEmpty = false := by simp [hne]
  have hmap : ∀ f : RepStats → ℚ, l.map f ≠ [] := by
    intro f hmap0
    exact hne (by simpa using hmap0)
  have hs : scenarioSummary l = some (ScenarioStats.mk
      (meanQ (l.map (fun x => x.avg_response_time)))
      (meanQ (l.map (fun x => x.median_response_time)))
      (maxList (l.map (fun x => x.max_response_time)))
      (minList (l.map (fun x => x.min_response_time)))
      (meanQ (l.map (fun x => x.p95_response_time)))
      (meanQ (l.map (fun x => x.p99_response_time)))
      (meanQ (l.map (fun x => x.success_rate)))
      (meanQ (l.map (fun x => x.requests_per_sec)))
      ((l.map (fun x => x.total_requests)).sum)
      ((l.map (fun x => x.total_failures)).sum)
      l.length) := by
    rw [scenarioSummary, hE]
    rfl
  refine ⟨_, hs, ?_, ?_, ?_, ?_, ?_, ?_,
    ⟨maxList_mem (hmap _), fun y hy => le_maxList hy⟩,
    ⟨minList_mem (hmap _), fun y hy => minList_le hy⟩, rfl, rfl⟩
  all_goals simp [meanQ, List.length_map]

/-- Witness for C1 on the spec test values: averages 100 and 140 give mean
120, maxima 300 and 250 give 300. -/
theorem C1_witness :
    ∃ s, scenarioSummary [repA, repB] = some s ∧
      s.avg_response_time = 120 ∧ s.max_response_time = 300 ∧
      s.min_response_time = 10 ∧ s.total_requests = 2200 := by
  obtain ⟨s, hs, havg, hmed, hp95, hp99, hthr, hsr, ⟨hmem, hub⟩, ⟨hmemn, hlb⟩, hreq, hfl⟩ :=
    C1_scenario_reductions [repA, repB] (by simp)
  refine ⟨s, hs, ?_, ?_, ?_, ?_⟩
  · rw [havg]
    norm_num [repA, repB]
  · have h300 : (300 : ℚ) ≤ s.max_response_time := hub 300 (by simp [repA, repB])
    have hor : s.max_response_time = 300 ∨ s.max_response_time = 250 := by
      simpa [repA, repB] using hmem
    rcases hor with h | h
    · exact h
    · rw [h] at h300
      norm_num at h300
  · have h10 : s.min_response_time ≤ (10 : ℚ) := hlb 10 (by simp [repA, repB])
    have hor : s.min_response_time = 10 ∨ s.min_response_time = 20 := by
      simpa [repA, repB] using hmemn
    rcases hor with h | h
    · exact h
    · rw [h] at h10
      norm_num at h10
  · rw [hreq]
    norm_num [repA, repB]

/-- C9: the scenario reduction is invariant under any permutation of the
repetition summaries, every per-field reduction being order-independent. -/
theorem C9_order_invariance (l₁ l₂ : List RepStats) (hne : l₁ ≠ []) (h : l₁.Perm l₂) :
    scenarioSummary l₁ = scenarioSummary l₂ := by
  have hne₂ : l₂ ≠ [] := by
    intro he
    exact hne (List.Perm.eq_nil (he ▸ h))
  have hE₁ : l₁.isEmpty = false := by simp [hne]
  have hE₂ : l₂.isEmpty = false := by simp [hne₂]
  rw [scenarioSummary, scenarioSummary, hE₁, hE₂]
  simp only [Bool.false_eq_true, if_false, Option.some.injEq, ScenarioStats.mk.injEq]
  exact ⟨meanQ_perm (h.map _), meanQ_perm (h.map _), maxList_perm (h.map _),
    minList_perm (h.map _), meanQ_perm (h.map _), meanQ_perm (h.map _),
    meanQ_perm (h.map _), meanQ_perm (h.map _), (h.map _).sum_eq,
    (h.map _).sum_eq, h.length_eq⟩

/-- Witness for C9: swapping two concrete repetition summaries leaves the
scenario summary unchanged. -/
theorem C9_witness : scenarioSummary [repA, repB] = scenarioSummary [repB, repA] :=
  C9_order_invariance [repA, repB] [repB, repA] (by simp)
    (List.Perm.swap repB repA [])

/-- C2: on a series whose aggregated rows are sorted by timestamp, the
warmup cutoff is the first timestamp plus the warmup duration, a snapshot
whose timestamp equals the cutoff is retained while one strictly before it
is excluded; on the example series with warmup 60 and timestamps
0, 30, 59, 60, 90 the retained rows are exactly those at 60 and 90 and the
point estimate is drawn from the timestamp-90 row. -/
theorem C2_warmup_boundary :
    (∀ (warmup : ℚ) (rows : List Row),
      aggRows rows ≠ [] →
      ((aggRows rows).map (fun r => r.timestamp)).Sorted (· ≤ ·) →
      cutoff warmup rows = ((aggRows rows).map (fun r => r.timestamp)).headI + warmup ∧
      ∀ r ∈ aggRows rows,
        (r.timestamp = cutoff warmup rows → r ∈ validRows warmup rows) ∧
        (r.timestamp < cutoff warmup rows → r ∉ validRows warmup rows)) ∧
    validRows 60 exampleSeries = [exRow3, exRow4] ∧
    loadRows 60 exampleSeries = .loaded (mkRepStats 60 exRow4 [exRow3, exRow4]) := by
  refine ⟨?_, validRows_example, loadRows_example⟩
  intro warmup rows hne hsorted
  have hmapne : (aggRows rows).map (fun r => r.timestamp) ≠ [] := by
    intro h0
    exact hne (by simpa using h0)
  constructor
  · rw [cutoff, startTimestamp, minList_sorted hmapne hsorted]
  · intro r hr
    constructor
    · intro heq
      exact List.mem_filter.mpr ⟨hr, by simp [heq]⟩
    · intro hlt hmem
      have hle := (List.mem_filter.mp hmem).2
      simp only [decide_eq_true_eq] at hle
      linarith

/-- Witness for C2: the snapshot exactly at the cutoff is retained, the
snapshot one second before it is not. -/
theorem C2_witness :
    exRow3 ∈ validRows 60 exampleSeries ∧ exRow2 ∉ validRows 60 exampleSeries := by
  have hne : aggRows exampleSeries ≠ [] := by
    rw [aggRows_example]
    simp
  have hsorted : ((aggRows exampleSeries).map (fun r => r.timestamp)).Sorted (· ≤ ·) := by
    rw [aggRows_example]
    norm_num [exRow0, exRow1, exRow2, exRow3, exRow4, sampleRow, List.sorted_cons]
  obtain ⟨hcut, hmem⟩ := C2_warmup_boundary.1 60 exampleSeries hne hsorted
  constructor
  · refine (hmem exRow3 ?_).1 ?_
    · rw [aggRows_example]
      simp
    · rw [cutoff_example]
      rfl
  · intro hin
    refine (hmem exRow2 ?_).2 ?_ hin
    · rw [aggRows_example]
      simp
    · rw [cutoff_example]
      norm_num [exRow2, sampleRow]

/-- C3: whenever a repetition loads, the point-estimate fields (avg,
median, min, max response time, defined percentiles, cumulative request
and failure counts) come from the last element of the retained rows,
while throughput is the arithmetic mean of the requests-per-second field
over all retained rows. -/
theorem C3_last_point_estimate (warmup : ℚ) (rows : List Row) (r : RepStats)
    (h : loadRows warmup rows = .loaded r) :
    ∃ finalRow, (validRows warmup rows).getLast? = some finalRow ∧
      r.avg_response_time = finalRow.avgResponseTime ∧
      r.median_response_time = finalRow.medianResponseTime ∧
      r.min_response_time = finalRow.minResponseTime ∧
      r.max_response_time = finalRow.maxResponseTime ∧
      (∀ v, finalRow.p95 = some v → r.p95_response_time = v) ∧
      (∀ v, finalRow.p99 = some v → r.p99_response_time = v) ∧
      r.total_requests = finalRow.requestCount ∧
      r.total_failures = finalRow.failureCount ∧
      r.requests_per_sec =
        ((validRows warmup rows).map (fun x => x.requestsPerSec)).sum /
          ((validRows warmup rows).length : ℚ) := by
  obtain ⟨hE, finalRow, hg, rfl⟩ := loadRows_loaded_iff.mp h
  refine ⟨finalRow, hg, rfl, rfl, rfl, rfl, ?_, ?_, rfl, rfl, ?_⟩
  · intro v hv
    show finalRow.p95.getD finalRow.avgResponseTime = v
    rw [hv]
    rfl
  · intro v hv
    show finalRow.p99.getD finalRow.avgResponseTime = v
    rw [hv]
    rfl
  · show meanQ ((validRows warmup rows).map (fun x => x.requestsPerSec)) = _
    rw [meanQ, List.length_map]

/-- Witness for C3 on the example series. -/
theorem C3_witness :
    ∃ finalRow, (validRows 60 exampleSeries).getLast? = some finalRow ∧
      (mkRepStats 60 exRow4 [exRow3, exRow4]).avg_response_time = finalRow.avgResponseTime := by
  obtain ⟨f, hf, havg, _⟩ := C3_last_point_estimate 60 exampleSeries _ loadRows_example
  exact ⟨f, hf, havg⟩

/-- C10: every loaded repetition summary is internally consistent: all
point-estimate fields and both counters come from one and the same
retained snapshot (the last one), and the stored success rate is exactly
the rate recomputed from the stored counters. -/
theorem C10_internal_consistency (warmup : ℚ) (rows : List Row) (r : RepStats)
    (h : loadRows warmup rows = .loaded r) :
    ∃ finalRow, (validRows warmup rows).getLast? = some finalRow ∧
      finalRow ∈ validRows warmup rows ∧
      r.total_requests = finalRow.requestCount ∧
      r.total_failures = finalRow.failureCount ∧
      r.avg_response_time = finalRow.avgResponseTime ∧
      r.median_response_time = finalRow.medianResponseTime ∧
      r.max_response_time = finalRow.maxResponseTime ∧
      r.min_response_time = finalRow.minResponseTime ∧
      r.p95_response_time = finalRow.p95.getD finalRow.avgResponseTime ∧
      r.p99_response_time = finalRow.p99.getD finalRow.avgResponseTime ∧
      r.success_rate = (if 0 < r.total_requests then
        ((r.total_requests : ℚ) - (r.total_failures : ℚ)) / (r.total_requests : ℚ) * 100
        else 0) := by
  obtain ⟨hE, finalRow, hg, rfl⟩ := loadRows_loaded_iff.mp h
  exact ⟨finalRow, hg, getLast?_mem_list hg, rfl, rfl, rfl, rfl, rfl, rfl, rfl, rfl, rfl⟩

/-- Witness for C10 on the example series. -/
theorem C10_witness :
    ∃ finalRow, (validRows 60 exampleSeries).getLast? = some finalRow ∧
      (mkRepStats 60 exRow4 [exRow3, exRow4]).total_requests = finalRow.requestCount := by
  obtain ⟨f, hf, _, hreq, _⟩ := C10_internal_consistency 60 exampleSeries _ loadRows_example
  exact ⟨f, hf, hreq⟩

/-- C8: when the percentile cells of the retained last snapshot are
missing, the loaded summary substitutes that snapshot's average response
time for them, and otherwise uses the defined percentile values, so no
missing value reaches the repetition summary. -/
theorem C8_percentile_fallback (warmup : ℚ) (rows : List Row) (r : RepStats)
    (h : loadRows warmup rows = .loaded r) :
    ∃ finalRow, (validRows warmup rows).getLast? = some finalRow ∧
      (finalRow.p95 = none → r.p95_response_time = finalRow.avgResponseTime) ∧
      (finalRow.p99 = none → r.p99_response_time = finalRow.avgResponseTime) ∧
      (∀ v, finalRow.p95 = some v → r.p95_response_time = v) ∧
      (∀ v, finalRow.p99 = some v → r.p99_response_time = v) := by
  obtain ⟨hE, finalRow, hg, rfl⟩ := loadRows_loaded_iff.mp h
  refine ⟨finalRow, hg, ?_, ?_, ?_, ?_⟩
  · intro hv
    show finalRow.p95.getD finalRow.avgResponseTime = _
    rw [hv]
    rfl
  · intro hv
    show finalRow.p99.getD finalRow.avgResponseTime = _
    rw [hv]
    rfl
  · intro v hv
    show finalRow.p95.getD finalRow.avgResponseTime = v
    rw [hv]
    rfl
  · intro v hv
    show finalRow.p99.getD finalRow.avgResponseTime = v
    rw [hv]
    rfl

/-- Witness for C8: on the series whose last retained snapshot has no
percentile cells, both percentile fields fall back to its average. -/
theorem C8_witness :
    (mkRepStats 40 nanRow [nanRow]).p95_response_time = nanRow.avgResponseTime ∧
    (mkRepStats 40 nanRow [nanRow]).p99_response_time = nanRow.avgResponseTime := by
  obtain ⟨f, hf, h95, h99, _, _⟩ := C8_percentile_fallback 40 nanSeries _ loadRows_nan
  have hfe : f = nanRow := by
    rw [validRows_nan] at hf
    exact (by simpa using hf : nanRow = f).symm
  rw [hfe] at h95 h99
  exact ⟨h95 rfl, h99 rfl⟩

/-- C4 counterexample: a loaded repetition whose final snapshot counts 5
requests, all failed, stores success rate 0 while its request count is not
0, so the rate is not 0 exactly when the request count is 0. -/
theorem C4_counterexample :
    loadRows 0 [failRow] = .loaded (mkRepStats 0 failRow [failRow]) ∧
    (mkRepStats 0 failRow [failRow]).total_requests = 5 ∧
    (mkRepStats 0 failRow [failRow]).success_rate = 0 := by
  refine ⟨loadRows_fail, rfl, ?_⟩
  show successRate 5 5 = 0
  norm_num [successRate]

/-- C4 amended: every loaded summary stores the rate
(req - fail) / req * 100 when req is positive and 0 when req is 0; the
rate lies in the interval 0 to 100 whenever the failure count does not
exceed the request count; and it is 0 exactly when the request count is 0
or every request failed. -/
theorem C4_success_rate (warmup : ℚ) (rows : List Row) (r : RepStats)
    (h : loadRows warmup rows = .loaded r) :
    (r.total_requests = 0 → r.success_rate = 0) ∧
    (0 < r.total_requests →
      r.success_rate =
        ((r.total_requests : ℚ) - (r.total_failures : ℚ)) / (r.total_requests : ℚ) * 100) ∧
    (r.total_failures ≤ r.total_requests → 0 ≤ r.success_rate ∧ r.success_rate ≤ 100) ∧
    (r.success_rate = 0 ↔ r.total_requests = 0 ∨ r.total_failures = r.total_requests) := by
  obtain ⟨hE, finalRow, hg, rfl⟩ := loadRows_loaded_iff.mp h
  exact successRate_cases finalRow.requestCount finalRow.failureCount

/-- Witness for the amended C4 on the example series: 3 failures out of
120 requests give a rate inside the unit-percentage interval. -/
theorem C4_witness :
    0 ≤ (mkRepStats 60 exRow4 [exRow3, exRow4]).success_rate ∧
    (mkRepStats 60 exRow4 [exRow3, exRow4]).success_rate ≤ 100 :=
  (C4_success_rate 60 exampleSeries _ loadRows_example).2.2.1 (by norm_num [mkRepStats, exRow4, sampleRow])

/-- C5 counterexample: the loader does not sort; on a permutation of a
sorted series it can return a different summary, because the point
estimate is read from the last retained row in input order. -/
theorem C5_counterexample :
    unsortedSeries.Perm sortedSeries ∧
    ¬ ((unsortedSeries.map (fun r => r.timestamp)).Sorted (· ≤ ·)) ∧
    loadRows 60 unsortedSeries ≠ loadRows 60 sortedSeries := by
  refine ⟨List.Perm.cons uRow0 (List.Perm.swap uRow60 uRow90 []), ?_, ?_⟩
  · norm_num [unsortedSeries, uRow0, uRow60, uRow90, sampleRow, List.sorted_cons]
  · rw [loadRows_unsorted, loadRows_sorted]
    intro hEq
    injection hEq with hst
    have h2 := congrArg RepStats.avg_response_time hst
    norm_num [mkRepStats, uRow60, uRow90, sampleRow] at h2

/-- C5 amended: the loader processes the series in input order without
sorting; the start timestamp, the cutoff, the retained rows up to order,
and the mean throughput are invariant under any permutation of the series,
but the point-estimate fields are read from the last retained row in input
order, so the full result on an unsorted series can differ from the result
on the sorted one. -/
theorem C5_perm_invariant_parts (warmup : ℚ) (rows₁ rows₂ : List Row)
    (h : rows₁.Perm rows₂) :
    startTimestamp rows₁ = startTimestamp rows₂ ∧
    cutoff warmup rows₁ = cutoff warmup rows₂ ∧
    (validRows warmup rows₁).Perm (validRows warmup rows₂) ∧
    meanQ ((validRows warmup rows₁).map (fun r => r.requestsPerSec)) =
      meanQ ((validRows warmup rows₂).map (fun r => r.requestsPerSec)) := by
  have hagg : (aggRows rows₁).Perm (aggRows rows₂) := h.filter _
  have hstart : startTimestamp rows₁ = startTimestamp rows₂ :=
    minList_perm (hagg.map _)
  have hcut : cutoff warmup rows₁ = cutoff warmup rows₂ := by
    rw [cutoff, cutoff, hstart]
  have hvalid : (validRows warmup rows₁).Perm (validRows warmup rows₂) := by
    simp only [validRows]
    rw [hcut]
    exact hagg.filter _
  exact ⟨hstart, hcut, hvalid, meanQ_perm (hvalid.map _)⟩

/-- Witness for the amended C5 on the concrete out-of-order series. -/
theorem C5_witness :
    cutoff 60 unsortedSeries = cutoff 60 sortedSeries ∧
    (validRows 60 unsortedSeries).Perm (validRows 60 sortedSeries) := by
  obtain ⟨_, hcut, hvalid, _⟩ := C5_perm_invariant_parts 60 unsortedSeries sortedSeries
    (List.Perm.cons uRow0 (List.Perm.swap uRow60 uRow90 []))
  exact ⟨hcut, hvalid⟩

/-- C6: a series whose aggregated snapshots all predate the warmup cutoff
yields the no-data-after-warmup outcome rather than a summary; the
repetition is dropped from the scenario reduction while the other files
still count; the emitted diagnostic is distinguishable from every other
outcome diagnostic; and processing always continues, never raising. -/
theorem C6_warmup_consumed (warmup : ℚ) (rows : List Row)
    (hne : aggRows rows ≠ [])
    (hall : ∀ r ∈ aggRows rows, r.timestamp < cutoff warmup rows) :
    loadRows warmup rows = .noDataAfterWarmup ∧
    (∀ fs gs, processScen warmup (fs ++ some rows :: gs) = processScen warmup (fs ++ gs)) ∧
    (∀ fs gs, scenLog warmup (fs ++ some rows :: gs) =
      scenLog warmup fs ++ diagnosticOf .noDataAfterWarmup :: scenLog warmup gs) ∧
    (∀ s, diagnosticOf (.loaded s) ≠ diagnosticOf .noDataAfterWarmup) ∧
    diagnosticOf .noAggregatedRows ≠ diagnosticOf .noDataAfterWarmup ∧
    diagnosticOf .readError ≠ diagnosticOf .noDataAfterWarmup := by
  have hv : validRows warmup rows = [] := by
    rw [validRows]
    rw [List.filter_eq_nil_iff]
    intro a ha
    simp only [decide_eq_true_eq, not_le]
    exact hall a ha
  have hload : loadRows warmup rows = .noDataAfterWarmup := by
    rw [loadRows, if_neg (by simp [hne]), hv]
    rfl
  refine ⟨hload, ?_, ?_, ?_, by decide, by decide⟩
  · intro fs gs
    simp [processScen, validStats, List.map_append, List.filterMap_append,
      processFile, hload]
  · intro fs gs
    simp [scenLog, List.map_append, processFile, hload]
  · intro s
    simp [diagnosticOf]

/-- Witness for C6: the spec scenario with timestamps 0, 10, 20 and warmup
30 is skipped with the no-data diagnostic and the scenario loop goes on as
if the file were absent. -/
theorem C6_witness :
    loadRows 30 warmupOnlySeries = .noDataAfterWarmup ∧
    processScen 30 [some warmupOnlySeries] = processScen 30 [] := by
  have ha : aggRows warmupOnlySeries = warmupOnlySeries := by
    norm_num [aggRows, warmupOnlySeries, sampleRow, List.filter]
  have hne : aggRows warmupOnlySeries ≠ [] := by
    rw [ha]
    simp [warmupOnlySeries]
  have hcut : cutoff 30 warmupOnlySeries = 30 := by
    rw [cutoff, startTimestamp, ha]
    norm_num [warmupOnlySeries, sampleRow, minList, min_def]
  have hall : ∀ r ∈ aggRows warmupOnlySeries, r.timestamp < cutoff 30 warmupOnlySeries := by
    rw [hcut, ha]
    intro r hr
    simp only [warmupOnlySeries, List.mem_cons, List.not_mem_nil, or_false] at hr
    rcases hr with rfl | rfl | rfl
    · norm_num [sampleRow]
    · norm_num [sampleRow]
    · norm_num [sampleRow]
  obtain ⟨h1, h2, _⟩ := C6_warmup_consumed 30 warmupOnlySeries hne hall
  refine ⟨h1, ?_⟩
  have := h2 [] []
  simpa using this

/-- C7 counterexample: when no scenario yields a result the driver prints
an error and returns from main without calling any exit routine, so the
completion status is 0, not a non-zero status. -/
theorem C7_counterexample :
    runAnalysis noResultScens = [] ∧
    mainRun noResultScens = .abortedNoResults 0 ∧
    ∀ c, mainRun noResultScens = .abortedNoResults c → c = 0 := by
  refine ⟨runAnalysis_noResult, ?_, ?_⟩
  · simp [mainRun, runAnalysis_noResult]
  · intro c hc
    simp [mainRun, runAnalysis_noResult] at hc
    exact hc.symm

/-- C7 amended: if no scenario yields any result the run prints an error
diagnostic and stops before producing any report or tables, but the
process still completes with exit status 0 because main returns normally
instead of exiting non-zero. -/
theorem C7_empty_results_exit (scens : List (String × ScenInfo × List (Option (List Row))))
    (h : runAnalysis scens = []) :
    mainRun scens = .abortedNoResults 0 ∧
    ∀ res, mainRun scens ≠ .completed res := by
  constructor
  · simp [mainRun, h]
  · intro res hres
    simp [mainRun, h] at hres

/-- Witness for the amended C7 on the concrete no-result scenario table. -/
theorem C7_witness : mainRun noResultScens = .abortedNoResults 0 :=
  (C7_empty_results_exit noResultScens runAnalysis_noResult).1
